import Mathlib

/-!
# Verification of the ClawCon print-server connection manager

Shallow embedding of the printer connection manager in `src/print-server.js`
(the primary variant, lines 1-375): the worker supervisor (`startWorker`,
lines 106-178), the job channel (`sendToWorker`, lines 180-201), the
orchestrator (`printReceipt`, lines 262-279), the Bluetooth reset sequencer
(`btReset`, lines 66-97), the HTTP dispatcher (lines 295-351), and the hex
job encoding (line 205-207 and the embedded Python worker, lines 120-146).

The environment (Bluetooth command success, device-node appearance, worker
readiness, per-job worker replies) is passed in as explicit oracle values;
the supervisor state is threaded explicitly and every externally visible
action is recorded in an event trace.

Node.js event-delivery model used throughout: `child.kill()` only sends a
signal; the `exit` event of a child process is always emitted
asynchronously, on a later event-loop turn.  Between a kill and the next
`await`, the source blocks the event loop with `execSync` calls (`btReset`
is a long chain of `execSync`s, and `startWorker`'s spawn happens
synchronously inside the promise executor), so a killed worker's `exit`
event is delivered at the first `await` after the next spawn - or, when the
call finishes without spawning, when the loop goes idle after the call.
This is modelled by the `pendingExits` queue: kills enqueue the worker's id,
and the queue is drained (running each exit handler of lines 172-176, which
unconditionally clears the global handle and the readiness flag) right
after a spawn at the `await` inside `startWorker`, or at the end of a
top-level operation.
-/

/-- Error values surfaced by the print server. Each constructor corresponds
to one `throw`/`reject` site in `src/print-server.js`. -/
inductive PErr
  | unknownTemplate (t : String)
  | btCommandFailed
  | deviceUnavailableAfterReset
  | deviceNotAvailable
  | workerDidNotStart
  | nullWorkerAccess
  | workerErrLine (line : String)
  | printTimeout
  | missingText
  | invalidJson
deriving DecidableEq, Repr

/-- A worker subprocess handle (`printWorker` global): its spawn id and the
`killed` flag of the Node `ChildProcess` object. -/
structure Handle where
  id : Nat
  killed : Bool
deriving DecidableEq, Repr

/-- Supervisor state.  `printWorker` and `printWorkerReady` are the two
globals of lines 103-104.  `alive` is the set of spawned worker processes
that have not been terminated (instrumentation for the at-most-one-worker
invariant); `readyEmitted` records which worker processes have printed
their READY line (instrumentation for the never-write-before-ready
invariant); `pendingExits` are queued, not yet delivered `exit` events of
terminated workers (see the module comment). -/
structure St where
  printWorker : Option Handle
  printWorkerReady : Bool
  nextId : Nat
  alive : List Nat
  readyEmitted : List Nat
  pendingExits : List Nat
deriving DecidableEq, Repr

def St.init : St := ⟨none, false, 0, [], [], []⟩

/-- Trace events: externally visible actions of the connection manager. -/
inductive Ev
  | kill (id : Nat)
  | btResetRun
  | spawn (id : Nat)
  | exitDelivered (id : Nat)
  | readyLine (id : Nat)
  | write (id : Nat) (toReadyWorker : Bool)
  | render (template : String)
  | crashed (id : Nat)
deriving DecidableEq, Repr

/-- Outcome of one full `btReset` episode as seen by its caller: success, an
unwrapped `execSync` failure, or the final device-absent error of line 96. -/
inductive BtO
  | okB
  | cmdFailB
  | deviceFailB
deriving DecidableEq, Repr

def btErr : BtO → Option PErr
  | .okB => none
  | .cmdFailB => some PErr.btCommandFailed
  | .deviceFailB => some PErr.deviceUnavailableAfterReset

/-- Environment outcomes consumed by one `startWorker` slow path: the
outcome of the `btReset` of line 114, the `deviceExists()` probe of
line 115, and whether the spawned worker prints READY within the 20 s
startup timeout (lines 151-166). -/
structure StartO where
  resetO : BtO
  deviceAfter : Bool
  readyInTime : Bool
deriving DecidableEq, Repr

/-- Environment outcome of one job submission: the worker answers with an
OK line, answers with an ERR line, or nothing matching arrives within the
10 s job timeout (lines 180-201). -/
inductive SubmitO
  | okS
  | errS (line : String)
  | timeoutS
deriving DecidableEq, Repr

instance : DecidableEq (Except PErr Unit) := fun a b =>
  match a, b with
  | Except.ok (), Except.ok () => isTrue rfl
  | Except.ok (), Except.error _ => isFalse (by simp)
  | Except.error _, Except.ok () => isFalse (by simp)
  | Except.error x, Except.error y =>
    if h : x = y then isTrue (by rw [h]) else isFalse (by simp [h])

/-- Result of an orchestration step: a value returned/thrown to the caller,
or a process-fatal uncaught exception (a `TypeError` thrown inside a timer
callback, which Node does not route to any caller). -/
inductive Res
  | ret (v : Except PErr Unit)
  | fatal
deriving DecidableEq, Repr

/-- The fast-path guard of line 107:
`printWorker && !printWorker.killed && printWorkerReady`. -/
def fastReady (s : St) : Bool :=
  match s.printWorker with
  | some h => !h.killed && s.printWorkerReady
  | none => false

/-- The `if (printWorker) { printWorker.kill(); printWorker = null; }`
pattern (lines 110, 274, 317).  Killing terminates the process (it leaves
`alive`) and queues its `exit` event. -/
def killIfPresent (s : St) : St × List Ev :=
  match s.printWorker with
  | some h =>
    let s1 : St := { s with
      printWorker := none
      alive := s.alive.erase h.id
      pendingExits := s.pendingExits ++ [h.id] }
    (s1, [Ev.kill h.id])
  | none => (s, [])

/-- Event-loop turn: deliver every queued `exit` event.  Each delivery runs
the handler of lines 172-176, which unconditionally sets
`printWorker = null` and `printWorkerReady = false`, whichever process the
event belongs to. -/
def deliverPendingExits (s : St) : St × List Ev :=
  match s.pendingExits with
  | [] => (s, [])
  | ps =>
    let s1 : St := { s with
      printWorker := none
      printWorkerReady := false
      pendingExits := [] }
    (s1, ps.map Ev.exitDelivered)

/-- `startWorker` (lines 106-178).  Fast path: handle present, not killed,
ready.  Slow path: kill any existing worker, run `btReset`, check the
device node, spawn, then (at the first `await`) the queued exit events are
delivered, and finally either the READY line resolves the promise or the
20 s timeout fires.  In the timeout branch the code calls
`printWorker.kill()` on the global handle; if the delivered exit events
have already cleared it, that is a `TypeError` inside a timer callback -
an uncaught exception (`Res.fatal`). -/
def startWorker (s : St) (o : StartO) : Res × St × List Ev :=
  if fastReady s then (Res.ret (Except.ok ()), s, [])
  else
    let k := killIfPresent s
    match btErr o.resetO with
    | some e => (Res.ret (Except.error e), k.1, k.2 ++ [Ev.btResetRun])
    | none =>
      if !o.deviceAfter then
        (Res.ret (Except.error PErr.deviceNotAvailable), k.1, k.2 ++ [Ev.btResetRun])
      else
        let id := k.1.nextId
        let s2 : St := { k.1 with
          printWorker := some ⟨id, false⟩
          printWorkerReady := false
          nextId := id + 1
          alive := k.1.alive ++ [id] }
        let dv := deliverPendingExits s2
        if o.readyInTime then
          let s4 : St := { dv.1 with
            printWorkerReady := true
            readyEmitted := dv.1.readyEmitted ++ [id] }
          (Res.ret (Except.ok ()), s4,
           k.2 ++ [Ev.btResetRun, Ev.spawn id] ++ dv.2 ++ [Ev.readyLine id])
        else
          match dv.1.printWorker with
          | none => (Res.fatal, dv.1, k.2 ++ [Ev.btResetRun, Ev.spawn id] ++ dv.2)
          | some h2 =>
            let s5 : St := { dv.1 with
              printWorker := none
              alive := dv.1.alive.erase h2.id
              pendingExits := dv.1.pendingExits ++ [h2.id] }
            (Res.ret (Except.error PErr.workerDidNotStart), s5,
             k.2 ++ [Ev.btResetRun, Ev.spawn id] ++ dv.2 ++ [Ev.kill h2.id])

/-- `sendToWorker` (lines 180-201).  The executor dereferences the global
`printWorker`; when it is `null` the promise rejects with a `TypeError`
before anything is written.  Otherwise the job line is written to the
worker's stdin (the `write` event records whether the target process has
emitted READY) and the outcome is the environment's reply. -/
def sendToWorker (s : St) (o : SubmitO) : Except PErr Unit × St × List Ev :=
  match s.printWorker with
  | none => (Except.error PErr.nullWorkerAccess, s, [])
  | some h =>
    let w := Ev.write h.id (decide (h.id ∈ s.readyEmitted))
    match o with
    | .okS => (Except.ok (), s, [w])
    | .errS l => (Except.error (PErr.workerErrLine l), s, [w])
    | .timeoutS => (Except.error PErr.printTimeout, s, [w])

/-- The `TEMPLATES` table of lines 255-258 (domain only; the byte builders
are out-of-scope pure formatting per the spec). -/
def knownTemplate (t : String) : Bool :=
  t == "clawcon-certificate" || t == "plain"

/-- Environment outcomes consumed by one `printReceipt` call: first
attempt's start and submit, the recovery `btReset` of line 275, and the
retry's start and submit. -/
structure PrintO where
  start1 : StartO
  submit1 : SubmitO
  resetRecover : BtO
  start2 : StartO
  submit2 : SubmitO
deriving DecidableEq, Repr

/-- The catch block of `printReceipt` (lines 271-277): kill any worker, run
`btReset`, restart the worker, retry the submit once.  Any failure here
propagates to the caller. -/
def printRecover (s : St) (o : PrintO) : Res × St × List Ev :=
  let k := killIfPresent s
  match btErr o.resetRecover with
  | some e => (Res.ret (Except.error e), k.1, k.2 ++ [Ev.btResetRun])
  | none =>
    match startWorker k.1 o.start2 with
    | (Res.fatal, s2, t2) => (Res.fatal, s2, k.2 ++ [Ev.btResetRun] ++ t2)
    | (Res.ret (Except.error e), s2, t2) =>
      (Res.ret (Except.error e), s2, k.2 ++ [Ev.btResetRun] ++ t2)
    | (Res.ret (Except.ok _), s2, t2) =>
      let r := sendToWorker s2 o.submit2
      (Res.ret r.1, r.2.1, k.2 ++ [Ev.btResetRun] ++ t2 ++ r.2.2)

/-- `printReceipt` (lines 262-279): template lookup, render, then
`startWorker(); sendToWorker()` with one recovery attempt on failure. -/
def printReceipt (s : St) (o : PrintO) (template : String) : Res × St × List Ev :=
  if !knownTemplate template then
    (Res.ret (Except.error (PErr.unknownTemplate template)), s, [])
  else
    match startWorker s o.start1 with
    | (Res.fatal, s1, t1) => (Res.fatal, s1, Ev.render template :: t1)
    | (Res.ret (Except.error _), s1, t1) =>
      let r := printRecover s1 o
      (r.1, r.2.1, Ev.render template :: (t1 ++ r.2.2))
    | (Res.ret (Except.ok _), s1, t1) =>
      match sendToWorker s1 o.submit1 with
      | (Except.ok _, s2, t2) => (Res.ret (Except.ok ()), s2, Ev.render template :: (t1 ++ t2))
      | (Except.error _, s2, t2) =>
        let r := printRecover s2 o
        (r.1, r.2.1, Ev.render template :: (t1 ++ t2 ++ r.2.2))

/-- Results of the `deviceExists()` and `blueutil --is-connected` probes at
the time of a status query (lines 34-48). -/
structure Probes where
  btConnected : Bool
  devExists : Bool
deriving DecidableEq, Repr

inductive Method
  | get
  | post
  | options
deriving DecidableEq, Repr

/-- An HTTP request after body parsing: `body = none` models a body that is
not valid JSON; otherwise the pair is the `template` and `text` fields
(each possibly absent). -/
structure Req where
  method : Method
  url : String
  body : Option (Option String × Option String)
deriving DecidableEq, Repr

inductive SResp
  | noContent
  | statusJson (connected device worker : Bool)
  | okTrue
  | err500 (e : PErr)
  | notFound
deriving DecidableEq, Repr

inductive SRes
  | resp (r : SResp)
  | fatalS
deriving DecidableEq, Repr

/-- The `POST /api/reset` handler (lines 315-328): kill any worker, full
`btReset`, restart the worker; errors become a 500 response. -/
def forceReset (s : St) (r : BtO) (o : StartO) : SRes × St × List Ev :=
  let k := killIfPresent s
  match btErr r with
  | some e => (SRes.resp (SResp.err500 e), k.1, k.2 ++ [Ev.btResetRun])
  | none =>
    match startWorker k.1 o with
    | (Res.fatal, s2, t2) => (SRes.fatalS, s2, k.2 ++ [Ev.btResetRun] ++ t2)
    | (Res.ret (Except.error e), s2, t2) =>
      (SRes.resp (SResp.err500 e), s2, k.2 ++ [Ev.btResetRun] ++ t2)
    | (Res.ret (Except.ok _), s2, t2) =>
      (SRes.resp SResp.okTrue, s2, k.2 ++ [Ev.btResetRun] ++ t2)

/-- The HTTP dispatcher (lines 295-351), routing in source order: OPTIONS,
`GET /api/status`, `POST /api/reset`, `POST /api/print`, 404. -/
def server (req : Req) (pr : Probes) (po : PrintO) (rr : BtO) (ro : StartO) (s : St) :
    SRes × St × List Ev :=
  if req.method == Method.options then (SRes.resp SResp.noContent, s, [])
  else if req.method == Method.get && req.url == "/api/status" then
    (SRes.resp (SResp.statusJson pr.btConnected pr.devExists s.printWorkerReady), s, [])
  else if req.method == Method.post && req.url == "/api/reset" then
    forceReset s rr ro
  else if req.method == Method.post && req.url == "/api/print" then
    match req.body with
    | none => (SRes.resp (SResp.err500 PErr.invalidJson), s, [])
    | some b =>
      match b.2 with
      | none => (SRes.resp (SResp.err500 PErr.missingText), s, [])
      | some t =>
        if t == "" then (SRes.resp (SResp.err500 PErr.missingText), s, [])
        else
          match printReceipt s po (b.1.getD "plain") with
          | (Res.fatal, s1, t1) => (SRes.fatalS, s1, t1)
          | (Res.ret (Except.ok _), s1, t1) => (SRes.resp SResp.okTrue, s1, t1)
          | (Res.ret (Except.error e), s1, t1) => (SRes.resp (SResp.err500 e), s1, t1)
  else (SRes.resp SResp.notFound, s, [])

/-- A top-level operation against the running server: server boot's
`startWorker()` call (line 370), a print call, an explicit reset, or an
unexpected crash of the current worker while the loop is idle. -/
inductive Op
  | bootOp (o : StartO)
  | printOp (template : String) (o : PrintO)
  | resetOp (r : BtO) (o : StartO)
  | crashOp
deriving DecidableEq, Repr

/-- After each top-level operation the event loop goes idle and any still
queued exit events are delivered. -/
def endIdle (s : St) : St × List Ev := deliverPendingExits s

/-- Run one operation.  `none` means the server process died (uncaught
exception). A crash of the current worker removes it from the live set and
immediately runs its exit handler (the loop is idle). -/
def runOp (s : St) : Op → Option St × List Ev
  | .bootOp o =>
    match startWorker s o with
    | (Res.fatal, _, t1) => (none, t1)
    | (_, s1, t1) =>
      let e := endIdle s1
      (some e.1, t1 ++ e.2)
  | .printOp tpl o =>
    match printReceipt s o tpl with
    | (Res.fatal, _, t1) => (none, t1)
    | (_, s1, t1) =>
      let e := endIdle s1
      (some e.1, t1 ++ e.2)
  | .resetOp r o =>
    match forceReset s r o with
    | (SRes.fatalS, _, t1) => (none, t1)
    | (_, s1, t1) =>
      let e := endIdle s1
      (some e.1, t1 ++ e.2)
  | .crashOp =>
    match s.printWorker with
    | some h =>
      let s1 : St := { s with
        printWorker := none
        printWorkerReady := false
        alive := s.alive.erase h.id }
      (some s1, [Ev.crashed h.id])
    | none => (some s, [])

def runOps (s : St) : List Op → Option St × List Ev
  | [] => (some s, [])
  | op :: rest =>
    match runOp s op with
    | (none, t) => (none, t)
    | (some s1, t) =>
      let r := runOps s1 rest
      (r.1, t ++ r.2)

/-- Evolution of the set of live worker processes along an event trace:
spawning adds a process, a kill or an unexpected crash removes it. -/
def stepAlive (a : List Nat) : Ev → List Nat
  | Ev.spawn id => id :: a
  | Ev.kill id => a.erase id
  | Ev.crashed id => a.erase id
  | _ => a

/-- All intermediate live-sets along a trace (including start and end). -/
def aliveScan (a : List Nat) : List Ev → List (List Nat)
  | [] => [a]
  | e :: t => a :: aliveScan (stepAlive a e) t

/-- Largest number of simultaneously live worker processes along a trace. -/
def maxAliveLen (a : List Nat) (t : List Ev) : Nat :=
  ((aliveScan a t).map List.length).foldl Nat.max 0

def countResets (t : List Ev) : Nat :=
  t.countP fun e => e == Ev.btResetRun

def countSpawns (t : List Ev) : Nat :=
  t.countP fun e =>
    match e with
    | Ev.spawn _ => true
    | _ => false

/-- Environment in which every Bluetooth command succeeds, the device node
is present and the spawned worker becomes ready in time. -/
def goodStart : StartO := ⟨BtO.okB, true, true⟩

/-- Boot the worker, then two operator resets, every external operation
succeeding. -/
def leakOps : List Op := [Op.bootOp goodStart, Op.resetOp BtO.okB goodStart,
  Op.resetOp BtO.okB goodStart]

/-- State with one worker (id 0) spawned, READY observed, handle live:
the state right after a successful boot. -/
def readySt : St := ⟨some ⟨0, false⟩, true, 1, [0], [0], []⟩

/-- Environment for one `printReceipt` call: the first submit fails with a
worker ERR line, the recovery reset succeeds, but the restarted worker
never prints READY within the 20 s startup timeout. -/
def crashPrintO : PrintO :=
  ⟨goodStart, SubmitO.errS "ERR fail", BtO.okB, ⟨BtO.okB, true, false⟩, SubmitO.okS⟩

/-- A trace has no job write to a worker that has not emitted READY. -/
def writesOnlyReady (t : List Ev) : Bool :=
  t.all fun e =>
    match e with
    | Ev.write _ b => b
    | _ => true

/-- Consistency of the readiness flag: whenever a handle is installed and
the readiness flag is set, the handle's process has emitted READY. -/
def readyInv (s : St) : Prop :=
  ∀ h, s.printWorker = some h → s.printWorkerReady = true → h.id ∈ s.readyEmitted

/-! ### The job-channel line protocol (`sendToWorker`, lines 180-201) -/

/-- What one `sendToWorker` promise settles to. -/
inductive SubmitRes
  | okR
  | errR (line : String)
  | timeoutR
deriving DecidableEq, Repr

/-- Character-wise prefix test (JavaScript `String.prototype.startsWith`). -/
def charsStartWith : List Char → List Char → Bool
  | [], _ => true
  | _ :: _, [] => false
  | t :: ts, c :: cs => c == t && charsStartWith ts cs

/-- `line.startsWith('OK')` (line 186). -/
def isOkLine (l : String) : Bool := charsStartWith ['O', 'K'] l.data

/-- `line.startsWith('ERR')` (line 190). -/
def isErrLine (l : String) : Bool := charsStartWith ['E', 'R', 'R'] l.data

def isResultLine (l : String) : Bool := isOkLine l || isErrLine l

/-- The per-job timeout of line 182, in milliseconds. -/
def sendTimeoutMs : Nat := 10000

/-- Settlement of one `sendToWorker` promise.  `arr` is the sequence of
stdout lines the data listener observes after being attached (chunks
already split on newlines, line 185), each with its arrival time in ms
after submission.  The first `OK`-tagged line resolves, the first
`ERR`-tagged line rejects with that line, other lines are ignored; if no
tagged line arrives before 10 s the timer of line 182 rejects with the
print-timeout error. -/
def resolveSend (arr : List (Nat × String)) : Nat × SubmitRes :=
  match arr.find? (fun p => isResultLine p.2) with
  | none => (sendTimeoutMs, SubmitRes.timeoutR)
  | some p =>
    if p.1 < sendTimeoutMs then
      (p.1, if isOkLine p.2 then SubmitRes.okR else SubmitRes.errR p.2)
    else (sendTimeoutMs, SubmitRes.timeoutR)

/-! ### The Bluetooth reset sequencer (`btReset`, lines 66-97) -/

/-- Externally visible Bluetooth-control actions of one reset episode. -/
inductive BtEv
  | btDisconnect
  | btUnpair
  | powerOff
  | powerOn
  | btPair (pin : String)
  | btConnect
  | devCheck (present : Bool)
deriving DecidableEq, Repr

/-- Environment of one reset episode: success of each unwrapped `execSync`
(the wrapped disconnect/unpair of lines 69-70 and 91 tolerate failure and
need no oracle), success of the per-cycle reconnect of line 93, and the
result of each successive `deviceExists()` probe. -/
structure BtEnv where
  power0Ok : Bool
  power1Ok : Bool
  pairOk : Bool
  connectOk : Bool
  cycleConnectOk : Nat → Bool
  device : Nat → Bool

/-- The inner poll loop of lines 84-90: up to `k` probes starting at probe
index `idx`, returning early on the first hit.  Result: (found, next probe
index, events). -/
def pollDevice (d : Nat → Bool) : Nat → Nat → Bool × Nat × List BtEv
  | idx, 0 => (false, idx, [])
  | idx, k + 1 =>
    if d idx then (true, idx + 1, [BtEv.devCheck true])
    else
      let r := pollDevice d (idx + 1) k
      (r.1, r.2.1, BtEv.devCheck false :: r.2.2)

/-- The retry loop of lines 83-94 plus the final check of line 96: `fuel`
remaining loop iterations, each being five polls followed by a
disconnect/connect cycle; when the loop is exhausted, one last
`deviceExists()` check decides between success and the
device-unavailable-after-reset error. -/
def btAttempts (e : BtEnv) : Nat → Nat → Nat → Except PErr Unit × List BtEv
  | _, idx, 0 =>
    if e.device idx then (Except.ok (), [BtEv.devCheck true])
    else (Except.error PErr.deviceUnavailableAfterReset, [BtEv.devCheck false])
  | cyc, idx, fuel + 1 =>
    let p := pollDevice e.device idx 5
    if p.1 then (Except.ok (), p.2.2)
    else if e.cycleConnectOk cyc then
      let r := btAttempts e (cyc + 1) p.2.1 fuel
      (r.1, p.2.2 ++ [BtEv.btDisconnect, BtEv.btConnect] ++ r.2)
    else
      (Except.error PErr.btCommandFailed, p.2.2 ++ [BtEv.btDisconnect, BtEv.btConnect])

/-- The fixed prefix of every reset episode (lines 69-80): best-effort
disconnect and unpair, radio power cycle, re-pair with the fixed PIN
`0000` through the `expect` prompt, connect. -/
def btPreTrace : List BtEv :=
  [BtEv.btDisconnect, BtEv.btUnpair, BtEv.powerOff, BtEv.powerOn,
   BtEv.btPair "0000", BtEv.btConnect]

/-- `btReset` (lines 66-97). -/
def btReset (e : BtEnv) : Except PErr Unit × List BtEv :=
  if !e.power0Ok then
    (Except.error PErr.btCommandFailed, [BtEv.btDisconnect, BtEv.btUnpair, BtEv.powerOff])
  else if !e.power1Ok then
    (Except.error PErr.btCommandFailed,
     [BtEv.btDisconnect, BtEv.btUnpair, BtEv.powerOff, BtEv.powerOn])
  else if !e.pairOk then
    (Except.error PErr.btCommandFailed,
     [BtEv.btDisconnect, BtEv.btUnpair, BtEv.powerOff, BtEv.powerOn, BtEv.btPair "0000"])
  else if !e.connectOk then (Except.error PErr.btCommandFailed, btPreTrace)
  else
    let r := btAttempts e 0 0 3
    (r.1, btPreTrace ++ r.2)

/-- Modelled from the claim text of C5 (spec sect. 4.2 steps 6-7): after the
fixed prefix, poll for the device node with one bounded round of
short-sleep iterations; if still absent, perform one extra
disconnect/connect cycle and poll again; if the node never appears, fail
with the device-unavailable-after-reset error.  To be compared against
`btReset` above, which is the embedding of the source. -/
def btResetClaimed (e : BtEnv) : Except PErr Unit × List BtEv :=
  if !e.power0Ok then
    (Except.error PErr.btCommandFailed, [BtEv.btDisconnect, BtEv.btUnpair, BtEv.powerOff])
  else if !e.power1Ok then
    (Except.error PErr.btCommandFailed,
     [BtEv.btDisconnect, BtEv.btUnpair, BtEv.powerOff, BtEv.powerOn])
  else if !e.pairOk then
    (Except.error PErr.btCommandFailed,
     [BtEv.btDisconnect, BtEv.btUnpair, BtEv.powerOff, BtEv.powerOn, BtEv.btPair "0000"])
  else if !e.connectOk then (Except.error PErr.btCommandFailed, btPreTrace)
  else
    let p := pollDevice e.device 0 5
    if p.1 then (Except.ok (), btPreTrace ++ p.2.2)
    else if e.cycleConnectOk 0 then
      let q := pollDevice e.device p.2.1 5
      if q.1 then
        (Except.ok (), btPreTrace ++ p.2.2 ++ [BtEv.btDisconnect, BtEv.btConnect] ++ q.2.2)
      else
        (Except.error PErr.deviceUnavailableAfterReset,
         btPreTrace ++ p.2.2 ++ [BtEv.btDisconnect, BtEv.btConnect] ++ q.2.2)
    else
      (Except.error PErr.btCommandFailed,
       btPreTrace ++ p.2.2 ++ [BtEv.btDisconnect, BtEv.btConnect])

def countConnects (t : List BtEv) : Nat :=
  t.countP fun e => e == BtEv.btConnect

/-- Environment in which every Bluetooth command succeeds and the device
node first appears at the eleventh `deviceExists()` probe, i.e. during the
third poll round of the source's retry loop. -/
def lateDevEnv : BtEnv := ⟨true, true, true, true, fun _ => true, fun i => i == 10⟩

/-! ### The hex job encoding (lines 205-207 and worker lines 134-145) -/

/-- One lowercase hex digit, as produced by `Buffer.toString('hex')`. -/
def hexDigitChar (n : Nat) : Char :=
  if n < 10 then Char.ofNat (48 + n) else Char.ofNat (87 + n)

def bytesToHexChars : List Nat → List Char
  | [] => []
  | b :: bs => hexDigitChar (b / 16) :: hexDigitChar (b % 16) :: bytesToHexChars bs

/-- The `hex` helper (lines 205-207): `Buffer.concat(buffers).toString('hex')`. -/
def hex (buffers : List (List Nat)) : String := ⟨bytesToHexChars buffers.flatten⟩

/-- Value of one hex digit as accepted by Python `bytes.fromhex` (both
cases). -/
def hexVal (c : Char) : Option Nat :=
  if '0' ≤ c ∧ c ≤ '9' then some (c.toNat - 48)
  else if 'a' ≤ c ∧ c ≤ 'f' then some (c.toNat - 87)
  else if 'A' ≤ c ∧ c ≤ 'F' then some (c.toNat - 55)
  else none

/-- Python `bytes.fromhex` over the characters of the argument: ASCII
spaces between byte pairs are skipped, each byte needs two contiguous hex
digits, anything else is an error. -/
def fromhexChars : List Char → Option (List Nat)
  | [] => some []
  | c :: rest =>
    if c = ' ' then fromhexChars rest
    else
      match rest with
      | [] => none
      | c2 :: rest2 =>
        match hexVal c, hexVal c2 with
        | some hi, some lo => (fromhexChars rest2).map (fun ds => (hi * 16 + lo) :: ds)
        | _, _ => none

/-- `bytes.fromhex(hex_data)` in the worker (line 139). -/
def fromhex (s : String) : Option (List Nat) := fromhexChars s.data

/-- The byte count carried in the worker's `OK` acknowledgement (line 143):
`len(bytes.fromhex(hex_data))`. -/
def okByteCount (hexStr : String) : Option Nat := (fromhex hexStr).map List.length

/-! ## Claim theorems -/

/-- Claim C1 is false of the code: after a successful boot and two
successful `POST /api/reset` calls, two worker processes are alive at the
same instant.  The first reset kills worker 0 and spawns worker 1, but
worker 0's deferred `exit` event (handler lines 172-176) is delivered after
the spawn and unconditionally clears the global handle, orphaning worker 1;
the second reset therefore finds no handle to kill and spawns worker 2
while worker 1 is still running. -/
theorem claim1_two_workers_alive :
    maxAliveLen [] (runOps St.init leakOps).2 = 2 ∧
    (runOps St.init leakOps).1 =
      some ⟨some ⟨2, false⟩, true, 3, [1, 2], [0, 1, 2], []⟩ := by
  constructor
  · decide
  · decide

/-- Claim C2 is false of the code: starting from a ready worker, a
`printReceipt` call whose first submit fails (worker ERR line) and whose
recovery worker never prints READY does not surface the second failure to
the caller - the 20 s startup-timeout callback (lines 151-157) calls
`printWorker.kill()` on a global handle that the killed old worker's
deferred `exit` event has already set to `null`, a `TypeError` inside a
timer callback, i.e. an uncaught exception that kills the server process. -/
theorem claim2_recovery_crashes :
    (printReceipt readySt crashPrintO "plain").1 = Res.fatal := by
  decide

/-- Claim C8: answering `GET /api/status` is a pure aggregation of the two
probes and the current worker-readiness flag; the supervisor state is
returned unchanged and no event (reset, spawn, write) is emitted, whatever
the oracles would allow. -/
theorem claim8_status_pure (pr : Probes) (po : PrintO) (rr : BtO) (ro : StartO)
    (s : St) (b : Option (Option String × Option String)) :
    server ⟨Method.get, "/api/status", b⟩ pr po rr ro s =
      (SRes.resp (SResp.statusJson pr.btConnected pr.devExists s.printWorkerReady), s, []) := by
  rfl

/-- Claim C10: in the `POST /api/print` handler, an absent `template` field
is handled exactly as `template = "plain"`; a missing or empty `text` field
yields the 500 `Missing text` error with the state untouched and an empty
event trace - no rendering, reset or worker interaction happens. -/
theorem claim10_print_body_validation :
    (∀ pr po rr ro s txt,
      server ⟨Method.post, "/api/print", some (none, txt)⟩ pr po rr ro s =
        server ⟨Method.post, "/api/print", some (some "plain", txt)⟩ pr po rr ro s) ∧
    (∀ pr po rr ro s tpl,
      server ⟨Method.post, "/api/print", some (tpl, none)⟩ pr po rr ro s =
        (SRes.resp (SResp.err500 PErr.missingText), s, [])) ∧
    (∀ pr po rr ro s tpl,
      server ⟨Method.post, "/api/print", some (tpl, some "")⟩ pr po rr ro s =
        (SRes.resp (SResp.err500 PErr.missingText), s, [])) := by
  refine ⟨?_, ?_, ?_⟩
  · intro pr po rr ro s txt
    rfl
  · intro pr po rr ro s tpl
    rfl
  · intro pr po rr ro s tpl
    rfl

/-- Claim C3: `startWorker` is idempotent.  If the worker handle exists, is
not killed and readiness has been acknowledged, the call returns
immediately with the state untouched and an empty trace (no reset, no
spawn); and starting from a worker-absent state with a clean event queue,
two consecutive calls with successful environment outcomes perform exactly
one reset and one spawn in total (the second call is a no-op). -/
theorem claim3_startWorker_idempotent :
    (∀ s h o, s.printWorker = some h → h.killed = false → s.printWorkerReady = true →
      startWorker s o = (Res.ret (Except.ok ()), s, [])) ∧
    (∀ s o o2, s.printWorker = none → s.pendingExits = [] →
      o.resetO = BtO.okB → o.deviceAfter = true → o.readyInTime = true →
      (startWorker s o).1 = Res.ret (Except.ok ()) ∧
      countResets (startWorker s o).2.2 = 1 ∧
      countSpawns (startWorker s o).2.2 = 1 ∧
      startWorker (startWorker s o).2.1 o2 =
        (Res.ret (Except.ok ()), (startWorker s o).2.1, [])) := by
  constructor
  · intro s h o hw hk hr
    simp [startWorker, fastReady, hw, hk, hr]
  · intro s o o2 hw hp hr hd hrt
    simp [startWorker, fastReady, killIfPresent, deliverPendingExits, hw, hp, hr, hd, hrt,
      btErr, countResets, countSpawns, List.countP_cons]

/-- Concrete instantiation of `claim3_startWorker_idempotent`: the ready
boot state satisfies the fast-path hypotheses, and the initial state
satisfies the worker-absent hypotheses. -/
theorem claim3_startWorker_idempotent_witness :
    startWorker readySt goodStart = (Res.ret (Except.ok ()), readySt, []) ∧
    countResets (startWorker St.init goodStart).2.2 = 1 ∧
    countSpawns (startWorker St.init goodStart).2.2 = 1 ∧
    startWorker (startWorker St.init goodStart).2.1 goodStart =
      (Res.ret (Except.ok ()), (startWorker St.init goodStart).2.1, []) := by
  refine ⟨claim3_startWorker_idempotent.1 readySt ⟨0, false⟩ goodStart rfl rfl rfl, ?_⟩
  have h := claim3_startWorker_idempotent.2 St.init goodStart goodStart rfl rfl rfl rfl rfl
  exact ⟨h.2.1, h.2.2.1, h.2.2.2⟩

/-- Claim C7: when the current worker process exits unexpectedly, the exit
handler clears the worker handle and the readiness flag (state `Absent`),
and the next `printReceipt` call from that state performs exactly one
reset and one spawn, observes READY, and only then writes the job (to the
newly spawned, READY-acknowledged worker). -/
theorem claim7_crash_then_single_restart
    (s : St) (h : Handle) (o : PrintO) (tpl : String)
    (hw : s.printWorker = some h) (hp : s.pendingExits = [])
    (hg : o.start1 = goodStart) (hs : o.submit1 = SubmitO.okS)
    (htpl : knownTemplate tpl = true) :
    ∃ s1, (runOp s Op.crashOp).1 = some s1 ∧
      s1.printWorker = none ∧ s1.printWorkerReady = false ∧
      (printReceipt s1 o tpl).1 = Res.ret (Except.ok ()) ∧
      (printReceipt s1 o tpl).2.2 =
        [Ev.render tpl, Ev.btResetRun, Ev.spawn s.nextId, Ev.readyLine s.nextId,
         Ev.write s.nextId true] ∧
      countResets (printReceipt s1 o tpl).2.2 = 1 ∧
      countSpawns (printReceipt s1 o tpl).2.2 = 1 := by
  refine ⟨{ s with
    printWorker := none
    printWorkerReady := false
    alive := s.alive.erase h.id }, by simp [runOp, hw], rfl, rfl, ?_⟩
  simp [printReceipt, htpl, startWorker, fastReady, killIfPresent, deliverPendingExits,
    hp, hg, hs, goodStart, btErr, sendToWorker, countResets, countSpawns, List.countP_cons]

/-- Concrete instantiation of `claim7_crash_then_single_restart` at the
ready boot state with an all-successful environment. -/
theorem claim7_crash_then_single_restart_witness :
    ∃ s1, (runOp readySt Op.crashOp).1 = some s1 ∧
      s1.printWorker = none ∧ s1.printWorkerReady = false ∧
      (printReceipt s1 ⟨goodStart, SubmitO.okS, BtO.okB, goodStart, SubmitO.okS⟩ "plain").1 =
        Res.ret (Except.ok ()) ∧
      (printReceipt s1 ⟨goodStart, SubmitO.okS, BtO.okB, goodStart, SubmitO.okS⟩ "plain").2.2 =
        [Ev.render "plain", Ev.btResetRun, Ev.spawn 1, Ev.readyLine 1, Ev.write 1 true] ∧
      countResets (printReceipt s1 ⟨goodStart, SubmitO.okS, BtO.okB, goodStart,
        SubmitO.okS⟩ "plain").2.2 = 1 ∧
      countSpawns (printReceipt s1 ⟨goodStart, SubmitO.okS, BtO.okB, goodStart,
        SubmitO.okS⟩ "plain").2.2 = 1 :=
  claim7_crash_then_single_restart readySt ⟨0, false⟩
    ⟨goodStart, SubmitO.okS, BtO.okB, goodStart, SubmitO.okS⟩ "plain"
    rfl rfl rfl rfl (by decide)

/-- Value of an encoded hex digit. -/
theorem hexVal_hexDigitChar (n : Nat) (h : n < 16) : hexVal (hexDigitChar n) = some n := by
  interval_cases n <;> decide

/-- Encoded hex digits are never the space character. -/
theorem hexDigitChar_ne_space (n : Nat) (h : n < 16) : hexDigitChar n ≠ ' ' := by
  interval_cases n <;> decide

/-- Round trip of the character-level encoding. -/
theorem fromhexChars_bytesToHexChars (bs : List Nat) (h : ∀ b ∈ bs, b < 256) :
    fromhexChars (bytesToHexChars bs) = some bs := by
  induction bs with
  | nil => rfl
  | cons b tl ih =>
    have hb : b < 256 := h b (by simp)
    have h1 : b / 16 < 16 := by omega
    have h2 : b % 16 < 16 := by omega
    have htl : ∀ x ∈ tl, x < 256 := fun x hx => h x (by simp [hx])
    simp [bytesToHexChars, fromhexChars, hexDigitChar_ne_space _ h1,
      hexVal_hexDigitChar _ h1, hexVal_hexDigitChar _ h2, ih htl]
    omega

/-- Claim C9: the hex job channel round-trips.  For every list of rendered
byte buffers, the lowercase hex string produced by the `hex` builder is
decoded by the worker's `bytes.fromhex` to exactly the concatenated
original bytes, so the byte count in the worker's `OK` acknowledgement
equals the length of the rendered payload. -/
theorem claim9_hex_roundtrip (buffers : List (List Nat))
    (h : ∀ buf ∈ buffers, ∀ b ∈ buf, b < 256) :
    fromhex (hex buffers) = some buffers.flatten ∧
    okByteCount (hex buffers) = some buffers.flatten.length := by
  have hf : ∀ b ∈ buffers.flatten, b < 256 := by
    intro b hb
    rw [List.mem_flatten] at hb
    obtain ⟨buf, hbuf, hb⟩ := hb
    exact h buf hbuf b hb
  have hr : fromhex (hex buffers) = some buffers.flatten :=
    fromhexChars_bytesToHexChars buffers.flatten hf
  exact ⟨hr, by simp [okByteCount, hr]⟩

/-- Concrete instantiation of `claim9_hex_roundtrip`: the two-byte ESC/POS
init sequence `[0x1b, 0x40]` encodes to `"1b40"` and decodes back, with
reported count 2. -/
theorem claim9_hex_roundtrip_witness :
    fromhex (hex [[27], [64]]) = some [27, 64] ∧
    okByteCount (hex [[27], [64]]) = some 2 :=
  claim9_hex_roundtrip [[27], [64]] (by decide)

/-- A line that is OK-tagged is not ERR-tagged. -/
theorem okLine_not_errLine (l : String) (h : isOkLine l = true) : isErrLine l = false := by
  unfold isOkLine at h
  unfold isErrLine
  cases hd : l.data with
  | nil => rw [hd] at h; simp [charsStartWith] at h
  | cons c cs =>
    rw [hd] at h
    simp only [charsStartWith, Bool.and_eq_true, beq_iff_eq] at h
    simp only [charsStartWith, Bool.and_eq_false_iff]
    left
    rw [h.1]
    decide

/-- A line that is ERR-tagged is not OK-tagged. -/
theorem errLine_not_okLine (l : String) (h : isErrLine l = true) : isOkLine l = false := by
  unfold isErrLine at h
  unfold isOkLine
  cases hd : l.data with
  | nil => rw [hd] at h; simp [charsStartWith] at h
  | cons c cs =>
    rw [hd] at h
    simp only [charsStartWith, Bool.and_eq_true, beq_iff_eq] at h
    simp only [charsStartWith, Bool.and_eq_false_iff]
    left
    rw [h.1]
    decide

/-- Positional correlation of result lines: if the listener attaches at a
stream position below which exactly `n` result lines have already been
emitted, the first result line it observes is the stream's `n`-th result
line overall - with the worker emitting exactly one result line per job in
submission order (worker loop, lines 134-145), that is the response to the
`n`-th job. -/
theorem find_result_after_drop (es : List String) (p n : Nat)
    (h : (es.take p).countP isResultLine = n) :
    (es.drop p).find? isResultLine = (es.filter isResultLine)[n]? := by
  induction es generalizing p n with
  | nil =>
    simp only [List.take_nil, List.countP_nil] at h
    subst h
    simp
  | cons e tl ih =>
    cases p with
    | zero =>
      simp only [List.take_zero, List.countP_nil] at h
      subst h
      by_cases hr : isResultLine e = true
      · simp [List.find?, hr, List.filter_cons]
      · rw [Bool.not_eq_true] at hr
        simp only [List.drop_zero, List.find?, hr, cond_false, List.filter_cons,
          Bool.false_eq_true, if_false]
        exact ih 0 0 (by simp)
    | succ q =>
      rw [List.take_succ_cons, List.countP_cons] at h
      rw [List.drop_succ_cons, List.filter_cons]
      by_cases hr : isResultLine e = true
      · simp [hr] at h
        simp only [hr, if_true]
        cases n with
        | zero => omega
        | succ m =>
          simp only [List.getElem?_cons_succ]
          exact ih q m (by omega)
      · rw [Bool.not_eq_true] at hr
        simp [hr] at h
        simp only [hr, Bool.false_eq_true, if_false]
        exact ih q n (by omega)

/-- Claim C4: `sendToWorker` (i) always settles within the configured 10 s
bound, (ii) resolves with success only when an OK-tagged line arrived
before the timeout, (iii) rejects with the full worker-reported line when
the first result line is ERR-tagged, (iv) rejects with the print-timeout
condition when no result line arrives in time, and (v) the first result
line a listener observes is its own submission's response, provided every
earlier job's response was emitted before the listener attached (which the
orchestration guarantees: a worker is discarded after any failed submit,
so a listener is only ever attached to a worker whose previous jobs all
completed). -/
theorem claim4_submit_ack :
    (∀ arr, (resolveSend arr).1 ≤ sendTimeoutMs) ∧
    (∀ arr, (resolveSend arr).2 = SubmitRes.okR →
      ∃ p, p ∈ arr ∧ isOkLine p.2 = true ∧ p.1 < sendTimeoutMs) ∧
    (∀ arr p, arr.find? (fun q => isResultLine q.2) = some p → isErrLine p.2 = true →
      p.1 < sendTimeoutMs → resolveSend arr = (p.1, SubmitRes.errR p.2)) ∧
    (∀ arr, arr.find? (fun q => isResultLine q.2) = none →
      resolveSend arr = (sendTimeoutMs, SubmitRes.timeoutR)) ∧
    (∀ (es : List String) (p n : Nat), (es.take p).countP isResultLine = n →
      (es.drop p).find? isResultLine = (es.filter isResultLine)[n]?) := by
  refine ⟨?_, ?_, ?_, ?_, find_result_after_drop⟩
  · intro arr
    cases hf : arr.find? (fun q => isResultLine q.2) with
    | none =>
      have hv : resolveSend arr = (sendTimeoutMs, SubmitRes.timeoutR) := by
        unfold resolveSend
        rw [hf]
      simp [hv]
    | some p =>
      have hv : resolveSend arr =
          if p.1 < sendTimeoutMs then
            (p.1, if isOkLine p.2 then SubmitRes.okR else SubmitRes.errR p.2)
          else (sendTimeoutMs, SubmitRes.timeoutR) := by
        unfold resolveSend
        rw [hf]
      rw [hv]
      by_cases hlt : p.1 < sendTimeoutMs
      · rw [if_pos hlt]
        omega
      · rw [if_neg hlt]
  · intro arr hok
    cases hf : arr.find? (fun q => isResultLine q.2) with
    | none =>
      have hv : resolveSend arr = (sendTimeoutMs, SubmitRes.timeoutR) := by
        unfold resolveSend
        rw [hf]
      rw [hv] at hok
      simp at hok
    | some p =>
      have hv : resolveSend arr =
          if p.1 < sendTimeoutMs then
            (p.1, if isOkLine p.2 then SubmitRes.okR else SubmitRes.errR p.2)
          else (sendTimeoutMs, SubmitRes.timeoutR) := by
        unfold resolveSend
        rw [hf]
      rw [hv] at hok
      by_cases hlt : p.1 < sendTimeoutMs
      · rw [if_pos hlt] at hok
        by_cases ho : isOkLine p.2 = true
        · exact ⟨p, List.mem_of_find?_eq_some hf, ho, hlt⟩
        · rw [Bool.not_eq_true] at ho
          rw [ho] at hok
          simp at hok
      · rw [if_neg hlt] at hok
        simp at hok
  · intro arr p hf he hlt
    have hv : resolveSend arr =
        if p.1 < sendTimeoutMs then
          (p.1, if isOkLine p.2 then SubmitRes.okR else SubmitRes.errR p.2)
        else (sendTimeoutMs, SubmitRes.timeoutR) := by
      unfold resolveSend
      rw [hf]
    rw [hv, if_pos hlt, errLine_not_okLine p.2 he]
    simp
  · intro arr hf
    unfold resolveSend
    rw [hf]

/-- Concrete instantiation of `claim4_submit_ack`: an in-time OK resolves,
an ERR line rejects with the full line, silence times out at 10 s, and a
listener attached after one consumed result line matches the second result
line of the stream. -/
theorem claim4_submit_ack_witness :
    (resolveSend [(500, "noise"), (700, "OK 42")]).1 ≤ sendTimeoutMs ∧
    (∃ p, p ∈ [(700, "OK 42")] ∧ isOkLine p.2 = true ∧ p.1 < sendTimeoutMs) ∧
    resolveSend [(3, "ERR boom")] = (3, SubmitRes.errR "ERR boom") ∧
    resolveSend [(4, "noise")] = (sendTimeoutMs, SubmitRes.timeoutR) ∧
    (["READY", "OK 1", "junk", "OK 2"].drop 2).find? isResultLine =
      (["READY", "OK 1", "junk", "OK 2"].filter isResultLine)[1]? :=
  ⟨claim4_submit_ack.1 [(500, "noise"), (700, "OK 42")],
   claim4_submit_ack.2.1 [(700, "OK 42")] (by decide),
   claim4_submit_ack.2.2.1 [(3, "ERR boom")] (3, "ERR boom") (by decide) (by decide) (by decide),
   claim4_submit_ack.2.2.2.1 [(4, "noise")] (by decide),
   claim4_submit_ack.2.2.2.2 ["READY", "OK 1", "junk", "OK 2"] 2 1 (by decide)⟩

/-- The inner poll loop finds the device iff one of its `k` probes hits. -/
theorem pollDevice_found (d : Nat → Bool) (k idx : Nat) :
    (pollDevice d idx k).1 = true ↔ ∃ i, i < k ∧ d (idx + i) = true := by
  induction k generalizing idx with
  | zero => simp [pollDevice]
  | succ m ih =>
    simp only [pollDevice]
    by_cases hd : d idx = true
    · simp only [hd, if_true]
      constructor
      · intro _
        exact ⟨0, by omega, by simpa using hd⟩
      · intro _
        trivial
    · rw [Bool.not_eq_true] at hd
      simp only [hd, Bool.false_eq_true, if_false]
      rw [ih (idx + 1)]
      constructor
      · rintro ⟨i, hi, hdi⟩
        have h2 : idx + 1 + i = idx + (i + 1) := by omega
        rw [h2] at hdi
        exact ⟨i + 1, by omega, hdi⟩
      · rintro ⟨i, hi, hdi⟩
        cases i with
        | zero => rw [Nat.add_zero] at hdi; rw [hdi] at hd; cases hd
        | succ j =>
          have h2 : idx + (j + 1) = idx + 1 + j := by omega
          rw [h2] at hdi
          exact ⟨j, by omega, hdi⟩

/-- When the poll loop fails, the probe counter has advanced by `k`. -/
theorem pollDevice_miss_idx (d : Nat → Bool) (k idx : Nat)
    (h : (pollDevice d idx k).1 = false) : (pollDevice d idx k).2.1 = idx + k := by
  induction k generalizing idx with
  | zero => simp [pollDevice]
  | succ m ih =>
    simp only [pollDevice] at h ⊢
    by_cases hd : d idx = true
    · simp [hd] at h
    · rw [Bool.not_eq_true] at hd
      simp only [hd, Bool.false_eq_true, if_false] at h ⊢
      rw [ih (idx + 1) h]
      omega

/-- The poll loop emits only device checks, never a connect. -/
theorem pollDevice_no_connect (d : Nat → Bool) (k idx : Nat) :
    countConnects (pollDevice d idx k).2.2 = 0 := by
  induction k generalizing idx with
  | zero => simp [pollDevice, countConnects]
  | succ m ih =>
    simp only [pollDevice]
    by_cases hd : d idx = true
    · simp [hd, countConnects]
    · rw [Bool.not_eq_true] at hd
      simp only [hd, Bool.false_eq_true, if_false]
      unfold countConnects at ih ⊢
      rw [List.countP_cons]
      simp only [show (BtEv.devCheck false == BtEv.btConnect) = false from rfl]
      simpa using ih (idx + 1)

/-- Success of the retry loop: with all reconnects succeeding, it succeeds
iff the device shows up at one of its `5 * fuel + 1` probes. -/
theorem btAttempts_ok_iff (e : BtEnv) (hc : ∀ n, e.cycleConnectOk n = true)
    (fuel cyc idx : Nat) :
    (btAttempts e cyc idx fuel).1 = Except.ok () ↔
      ∃ i, i < 5 * fuel + 1 ∧ e.device (idx + i) = true := by
  induction fuel generalizing cyc idx with
  | zero =>
    simp only [btAttempts]
    by_cases hd : e.device idx = true
    · simp only [hd, if_true]
      constructor
      · intro _
        exact ⟨0, by omega, by simpa using hd⟩
      · intro _
        trivial
    · rw [Bool.not_eq_true] at hd
      simp only [hd, Bool.false_eq_true, if_false]
      constructor
      · intro hcon
        cases hcon
      · rintro ⟨i, hi, hdi⟩
        have hz : i = 0 := by omega
        rw [hz, Nat.add_zero] at hdi
        rw [hdi] at hd
        cases hd
  | succ m ih =>
    simp only [btAttempts]
    by_cases hp : (pollDevice e.device idx 5).1 = true
    · simp only [hp, if_true]
      rw [pollDevice_found] at hp
      obtain ⟨i, hi, hdi⟩ := hp
      constructor
      · intro _
        exact ⟨i, by omega, hdi⟩
      · intro _
        trivial
    · rw [Bool.not_eq_true] at hp
      have hno : ¬ ∃ i, i < 5 ∧ e.device (idx + i) = true := by
        rw [← pollDevice_found e.device 5 idx]
        simp [hp]
      simp only [hp, Bool.false_eq_true, if_false, hc cyc, if_true]
      rw [pollDevice_miss_idx e.device 5 idx hp]
      rw [ih (cyc + 1) (idx + 5)]
      constructor
      · rintro ⟨i, hi, hdi⟩
        have h2 : idx + 5 + i = idx + (i + 5) := by omega
        rw [h2] at hdi
        exact ⟨i + 5, by omega, hdi⟩
      · rintro ⟨i, hi, hdi⟩
        by_cases h5 : i < 5
        · exact absurd ⟨i, h5, hdi⟩ hno
        · have h2 : idx + i = idx + 5 + (i - 5) := by omega
          rw [h2] at hdi
          exact ⟨i - 5, by omega, hdi⟩

/-- With all reconnects succeeding, the retry loop either succeeds or fails
with the device-unavailable-after-reset error - no other outcome. -/
theorem btAttempts_ok_or_unavailable (e : BtEnv) (hc : ∀ n, e.cycleConnectOk n = true)
    (fuel cyc idx : Nat) :
    (btAttempts e cyc idx fuel).1 = Except.ok () ∨
    (btAttempts e cyc idx fuel).1 = Except.error PErr.deviceUnavailableAfterReset := by
  induction fuel generalizing cyc idx with
  | zero =>
    simp only [btAttempts]
    by_cases hd : e.device idx = true
    · left
      simp [hd]
    · right
      rw [Bool.not_eq_true] at hd
      simp [hd]
  | succ m ih =>
    simp only [btAttempts]
    by_cases hp : (pollDevice e.device idx 5).1 = true
    · left
      simp [hp]
    · rw [Bool.not_eq_true] at hp
      simp only [hp, Bool.false_eq_true, if_false, hc cyc, if_true]
      exact ih (cyc + 1) _

/-- The retry loop performs at most one reconnect per loop iteration. -/
theorem btAttempts_connects (e : BtEnv) (fuel cyc idx : Nat) :
    countConnects (btAttempts e cyc idx fuel).2 ≤ fuel := by
  induction fuel generalizing cyc idx with
  | zero =>
    simp only [btAttempts]
    by_cases hd : e.device idx = true
    · simp [hd, countConnects]
    · rw [Bool.not_eq_true] at hd
      simp [hd, countConnects]
  | succ m ih =>
    simp only [btAttempts]
    by_cases hp : (pollDevice e.device idx 5).1 = true
    · simp only [hp, if_true]
      rw [pollDevice_no_connect]
      omega
    · rw [Bool.not_eq_true] at hp
      simp only [hp, Bool.false_eq_true, if_false]
      by_cases hcy : e.cycleConnectOk cyc = true
      · simp only [hcy, if_true]
        unfold countConnects at ih ⊢
        rw [List.countP_append, List.countP_append]
        have h1 := pollDevice_no_connect e.device 5 idx
        unfold countConnects at h1
        have h2 := ih (cyc + 1) (pollDevice e.device idx 5).2.1
        have h3 : List.countP (fun ev => ev == BtEv.btConnect)
            [BtEv.btDisconnect, BtEv.btConnect] = 1 := by decide
        omega
      · rw [Bool.not_eq_true] at hcy
        simp only [hcy, Bool.false_eq_true, if_false]
        unfold countConnects
        rw [List.countP_append]
        have h1 := pollDevice_no_connect e.device 5 idx
        unfold countConnects at h1
        have h3 : List.countP (fun ev => ev == BtEv.btConnect)
            [BtEv.btDisconnect, BtEv.btConnect] = 1 := by decide
        omega

/-- Claim C5, amended to match the source: after the fixed
disconnect/unpair/power-cycle/pair/connect prologue, `btReset` polls in up
to three rounds of five checks, with a disconnect/connect cycle after each
unsuccessful round (so up to three extra cycles, not one), then makes one
final existence check; with all commands succeeding it returns success iff
the device appears at one of these 16 probes, it fails with the
device-unavailable-after-reset error when the device never appears, the
trace starts with the fixed prologue, and at most four connect commands
are ever issued. -/
theorem claim5_reset_amended (e : BtEnv)
    (h0 : e.power0Ok = true) (h1 : e.power1Ok = true) (hp : e.pairOk = true)
    (hcn : e.connectOk = true) (hc : ∀ n, e.cycleConnectOk n = true) :
    ((btReset e).1 = Except.ok () ↔ ∃ i, i < 16 ∧ e.device i = true) ∧
    ((∀ i, i < 16 → e.device i = false) →
      (btReset e).1 = Except.error PErr.deviceUnavailableAfterReset) ∧
    (btReset e).2.take 6 = btPreTrace ∧
    countConnects (btReset e).2 ≤ 4 := by
  have hb : btReset e = ((btAttempts e 0 0 3).1, btPreTrace ++ (btAttempts e 0 0 3).2) := by
    unfold btReset
    rw [h0, h1, hp, hcn]
    rfl
  have hiff : (btAttempts e 0 0 3).1 = Except.ok () ↔ ∃ i, i < 16 ∧ e.device i = true := by
    rw [btAttempts_ok_iff e hc 3 0 0]
    constructor
    · rintro ⟨i, hi, hdi⟩
      rw [Nat.zero_add] at hdi
      exact ⟨i, by omega, hdi⟩
    · rintro ⟨i, hi, hdi⟩
      rw [← Nat.zero_add i] at hdi
      exact ⟨i, by omega, hdi⟩
  refine ⟨by rw [hb]; exact hiff, ?_, ?_, ?_⟩
  · intro hnone
    rw [hb]
    rcases btAttempts_ok_or_unavailable e hc 3 0 0 with hok | herr
    · rw [hiff] at hok
      obtain ⟨i, hi, hdi⟩ := hok
      rw [hnone i hi] at hdi
      cases hdi
    · exact herr
  · rw [hb]
    have hl : (6 : Nat) = btPreTrace.length := rfl
    rw [hl, List.take_left]
  · rw [hb]
    unfold countConnects
    rw [List.countP_append]
    have h2 := btAttempts_connects e 3 0 0
    unfold countConnects at h2
    have h3 : List.countP (fun ev => ev == BtEv.btConnect) btPreTrace = 1 := by decide
    omega

/-- Concrete instantiation of `claim5_reset_amended` at the environment
where the device appears at the eleventh probe. -/
theorem claim5_reset_amended_witness :
    ((btReset lateDevEnv).1 = Except.ok () ↔ ∃ i, i < 16 ∧ lateDevEnv.device i = true) ∧
    ((∀ i, i < 16 → lateDevEnv.device i = false) →
      (btReset lateDevEnv).1 = Except.error PErr.deviceUnavailableAfterReset) ∧
    (btReset lateDevEnv).2.take 6 = btPreTrace ∧
    countConnects (btReset lateDevEnv).2 ≤ 4 :=
  claim5_reset_amended lateDevEnv rfl rfl rfl rfl (fun _ => rfl)

/-- Claim C5 as stated is false of the code: with the device node first
appearing at the eleventh probe (third poll round), the source's `btReset`
succeeds, while the procedure described by the claim - one poll round, at
most one extra disconnect/connect cycle, one more poll round, then
failure - would already have failed; the code performs up to three extra
cycles, not one. -/
theorem claim5_counterexample :
    (btReset lateDevEnv).1 = Except.ok () ∧
    (btResetClaimed lateDevEnv).1 = Except.error PErr.deviceUnavailableAfterReset ∧
    btReset lateDevEnv ≠ btResetClaimed lateDevEnv := by
  refine ⟨by decide, by decide, by decide⟩

/-- The exit-delivery trace contains no job writes. -/
theorem deliverPendingExits_no_writes (s : St) :
    writesOnlyReady (deliverPendingExits s).2 = true := by
  unfold deliverPendingExits
  cases hp : s.pendingExits with
  | nil => rfl
  | cons a l =>
    simp only [writesOnlyReady, List.all_eq_true, List.mem_map]
    rintro e ⟨x, _, rfl⟩
    rfl

/-- The `startWorker` trace contains no job writes. -/
theorem startWorker_no_writes (s : St) (o : StartO) :
    writesOnlyReady (startWorker s o).2.2 = true := by
  unfold startWorker
  by_cases hf : fastReady s = true
  · simp [hf, writesOnlyReady]
  · rw [Bool.not_eq_true] at hf
    simp only [hf, Bool.false_eq_true, if_false]
    have hk : writesOnlyReady (killIfPresent s).2 = true := by
      unfold killIfPresent
      cases s.printWorker <;> rfl
    have hd := deliverPendingExits_no_writes
    cases hbt : btErr o.resetO with
    | some e =>
      simp only [writesOnlyReady, List.all_append] at hk ⊢
      simp [hk]
    | none =>
      by_cases hdev : o.deviceAfter = true
      · simp only [hdev, Bool.not_true, Bool.false_eq_true, if_false]
        by_cases hrt : o.readyInTime = true
        · simp only [hrt, if_true]
          simp only [writesOnlyReady, List.all_append, List.all_cons] at hk hd ⊢
          simp [hk, hd]
        · rw [Bool.not_eq_true] at hrt
          simp only [hrt, Bool.false_eq_true, if_false]
          cases hw : (deliverPendingExits _).1.printWorker
          · simp only [writesOnlyReady, List.all_append, List.all_cons] at hk hd ⊢
            simp [hk, hd]
          · simp only [writesOnlyReady, List.all_append, List.all_cons] at hk hd ⊢
            simp [hk, hd]
      · rw [Bool.not_eq_true] at hdev
        simp only [hdev, Bool.not_false, if_true]
        simp only [writesOnlyReady, List.all_append, List.all_cons] at hk ⊢
        simp [hk]

/-- The fast-path guard implies the readiness flag. -/
theorem fastReady_flag (s : St) (h : fastReady s = true) : s.printWorkerReady = true := by
  unfold fastReady at h
  cases hw : s.printWorker with
  | none => rw [hw] at h; cases h
  | some hd =>
    rw [hw] at h
    exact (Bool.and_eq_true _ _ |>.mp h).2

/-- `sendToWorker` never changes the supervisor state. -/
theorem sendToWorker_state (s : St) (o : SubmitO) : (sendToWorker s o).2.1 = s := by
  unfold sendToWorker
  cases s.printWorker <;> cases o <;> rfl

/-- If the current handle's process has emitted READY, every write in the
`sendToWorker` trace goes to a READY-acknowledged worker. -/
theorem sendToWorker_writes (s : St) (o : SubmitO)
    (h : ∀ hd, s.printWorker = some hd → hd.id ∈ s.readyEmitted) :
    writesOnlyReady (sendToWorker s o).2.2 = true := by
  unfold sendToWorker
  cases hw : s.printWorker with
  | none => cases o <;> rfl
  | some hd =>
    have hm : hd.id ∈ s.readyEmitted := h hd hw
    cases o <;> simp [writesOnlyReady, hm]

/-- `startWorker` preserves the readiness-flag consistency invariant. -/
theorem startWorker_preserves_inv (s : St) (o : StartO) (hinv : readyInv s) :
    readyInv (startWorker s o).2.1 := by
  by_cases hf : fastReady s = true
  · unfold startWorker
    rw [if_pos hf]
    exact hinv
  · obtain ⟨pw, rdy, nid, al, re, pe⟩ := s
    obtain ⟨ro, da, ri⟩ := o
    rw [Bool.not_eq_true] at hf
    unfold startWorker
    rw [hf]
    simp only [Bool.false_eq_true, if_false]
    unfold killIfPresent deliverPendingExits
    cases pw <;> cases ro <;> cases da <;> cases ri <;> cases pe <;>
      simp only [btErr] <;> intro hd2 hw2 hr2 <;> simp_all <;> (rw [← hw2]; simp)

/-- When `startWorker` resolves successfully, the readiness flag is set. -/
theorem startWorker_ok_flag (s : St) (o : StartO)
    (hok : (startWorker s o).1 = Res.ret (Except.ok ())) :
    (startWorker s o).2.1.printWorkerReady = true := by
  by_cases hf : fastReady s = true
  · unfold startWorker
    rw [if_pos hf]
    exact fastReady_flag s hf
  · obtain ⟨pw, rdy, nid, al, re, pe⟩ := s
    obtain ⟨ro, da, ri⟩ := o
    rw [Bool.not_eq_true] at hf
    unfold startWorker at hok ⊢
    rw [hf] at hok ⊢
    simp only [Bool.false_eq_true, if_false] at hok ⊢
    unfold killIfPresent deliverPendingExits at hok ⊢
    cases pw <;> cases ro <;> cases da <;> cases ri <;> cases pe <;> simp_all [btErr]

/-- Killing the current worker preserves the consistency invariant. -/
theorem killIfPresent_inv (s : St) (hinv : readyInv s) : readyInv (killIfPresent s).1 := by
  unfold killIfPresent
  cases hw : s.printWorker with
  | none => exact hinv
  | some hd =>
    intro hd2 hw2
    simp at hw2

/-- Every write in a recovery attempt goes to a READY-acknowledged worker. -/
theorem printRecover_writes (s : St) (o : PrintO) (hinv : readyInv s) :
    writesOnlyReady (printRecover s o).2.2 = true := by
  have hkw : writesOnlyReady (killIfPresent s).2 = true := by
    unfold killIfPresent
    cases s.printWorker <;> rfl
  have hki : readyInv (killIfPresent s).1 := killIfPresent_inv s hinv
  simp only [printRecover]
  cases hbt : btErr o.resetRecover with
  | some e =>
    simp only [writesOnlyReady, List.all_append] at hkw ⊢
    simp [hkw]
  | none =>
    rcases hsw : startWorker (killIfPresent s).1 o.start2 with ⟨r2, s2, t2⟩
    have hnw := startWorker_no_writes (killIfPresent s).1 o.start2
    rw [hsw] at hnw
    simp only [hsw]
    cases r2 with
    | fatal =>
      simp only [writesOnlyReady, List.all_append, List.all_cons] at hkw hnw ⊢
      simp [hkw, hnw]
    | ret v =>
      cases v with
      | error e =>
        simp only [writesOnlyReady, List.all_append, List.all_cons] at hkw hnw ⊢
        simp [hkw, hnw]
      | ok u =>
        have hi2 : readyInv s2 := by
          have hpi := startWorker_preserves_inv (killIfPresent s).1 o.start2 hki
          rw [hsw] at hpi
          exact hpi
        have hfl : s2.printWorkerReady = true := by
          have hfo := startWorker_ok_flag (killIfPresent s).1 o.start2 (by rw [hsw])
          rw [hsw] at hfo
          exact hfo
        have hsend := sendToWorker_writes s2 o.submit2 (fun hd hw => hi2 hd hw hfl)
        simp only [writesOnlyReady, List.all_append, List.all_cons] at hkw hnw hsend ⊢
        simp [hkw, hnw, hsend]

/-- Claim C6: in every execution path of `printReceipt`, a job line is only
ever written to a worker process that has emitted its READY
acknowledgement - `sendToWorker` runs only after `startWorker` has
resolved, and at that point the installed handle (when one survives) is
the READY-acknowledged process.  The hypothesis is the consistency
invariant relating the readiness flag to the instrumentation, which holds
for every reachable state. -/
theorem claim6_no_write_before_ready (s : St) (o : PrintO) (tpl : String)
    (hinv : readyInv s) :
    writesOnlyReady (printReceipt s o tpl).2.2 = true := by
  unfold printReceipt
  by_cases ht : knownTemplate tpl = true
  · simp only [ht, Bool.not_true, Bool.false_eq_true, if_false]
    rcases h1 : startWorker s o.start1 with ⟨r1, s1, t1⟩
    have hnw1 := startWorker_no_writes s o.start1
    rw [h1] at hnw1
    have hi1 : readyInv s1 := by
      have hpi := startWorker_preserves_inv s o.start1 hinv
      rw [h1] at hpi
      exact hpi
    cases r1 with
    | fatal =>
      simp only [writesOnlyReady, List.all_cons] at hnw1 ⊢
      simp [hnw1]
    | ret v =>
      cases v with
      | error e =>
        have hr := printRecover_writes s1 o hi1
        simp only [writesOnlyReady, List.all_cons, List.all_append] at hnw1 hr ⊢
        simp [hnw1, hr]
      | ok u =>
        have hfl : s1.printWorkerReady = true := by
          have hfo := startWorker_ok_flag s o.start1 (by rw [h1])
          rw [h1] at hfo
          exact hfo
        have hsend := sendToWorker_writes s1 o.submit1 (fun hd hw => hi1 hd hw hfl)
        have hst := sendToWorker_state s1 o.submit1
        rcases h2 : sendToWorker s1 o.submit1 with ⟨r2, s2, t2⟩
        rw [h2] at hsend hst
        simp only []
        rw [h2]
        cases r2 with
        | ok u2 =>
          simp only [writesOnlyReady, List.all_cons, List.all_append] at hnw1 hsend ⊢
          simp [hnw1, hsend]
        | error e =>
          have hi2 : readyInv s2 := by
            have hs2 : s2 = s1 := hst
            rw [hs2]
            exact hi1
          have hr := printRecover_writes s2 o hi2
          simp only [writesOnlyReady, List.all_cons, List.all_append] at hnw1 hsend hr ⊢
          simp [hnw1, hsend, hr]
  · rw [Bool.not_eq_true] at ht
    simp only [ht, Bool.not_false, if_true]
    rfl

/-- Concrete instantiation of `claim6_no_write_before_ready` at the ready
boot state with a failing first submit and a successful recovery. -/
theorem claim6_no_write_before_ready_witness :
    writesOnlyReady (printReceipt readySt
      ⟨goodStart, SubmitO.errS "ERR x", BtO.okB, goodStart, SubmitO.okS⟩ "plain").2.2 = true :=
  claim6_no_write_before_ready readySt
    ⟨goodStart, SubmitO.errS "ERR x", BtO.okB, goodStart, SubmitO.okS⟩ "plain"
    (fun hd hw _ => by
      injection hw with h2
      rw [← h2]
      decide)
